import Mathlib

/-!
Verification of the deferred-deletion scheduler in `Code/main.py` of the
Radio-Bot repository (a Discord bot that anonymises messages and schedules
their deletion 24 hours later).

Shallow embedding conventions:
* Timestamps (`datetime` values, always UTC-aware in this code) are modelled
  as `Int` (seconds since the epoch); comparisons `delete_time <= now` become
  integer comparisons.
* Python's `datetime.isoformat` / `datetime.fromisoformat` round-trip an
  aware UTC datetime exactly (microsecond precision is preserved by the
  ISO-8601 text).  We model a serialized timestamp as `IsoString`: either the
  faithful image of a timestamp under `isoformat`, or a malformed string that
  `fromisoformat` rejects with `ValueError`.  The sweep's
  `.replace(tzinfo=timezone.utc)` is the identity on the UTC-aware values the
  bot itself stores, so it does not appear explicitly.
* A Python `dict` (the JSON snapshot) is an insertion-ordered association
  list with unique keys: assignment updates in place, `del` removes, and
  `.items()` iterates in list order.
* A raised exception is modelled as `Option.none` (for parse failures) or as
  an explicit `raised`/`shutdown` flag where the surrounding `try` block
  matters.
* Python defines `delete_message`, `load_deletion_schedule_from_db` and
  `save_deletion_to_db` twice; the later definition shadows the earlier one,
  so only the later definitions (lines 137-152, 312-326, 329-349) are
  embedded.
-/

/-- UTC timestamps, in seconds. -/
abbrev Timestamp := Int

/-- A string holding either a well-formed ISO-8601 UTC timestamp (the image
of `datetime.isoformat`) or text that `datetime.fromisoformat` rejects. -/
inductive IsoString where
  | valid (t : Timestamp)
  | malformed (junk : String)
deriving DecidableEq, Repr

/-- Model of `datetime.isoformat` on an aware UTC datetime. -/
def isoformat (t : Timestamp) : IsoString := IsoString.valid t

/-- Model of `datetime.fromisoformat`: `none` models a raised `ValueError`. -/
def fromisoformat : IsoString → Option Timestamp
  | IsoString.valid t => some t
  | IsoString.malformed _ => none

/-- The JSON snapshot `dict`: insertion-ordered association list. -/
abbrev Schedule := List (String × IsoString)

/-- Python `d[k]` lookup (`None` when absent, for our purposes). -/
def dictGet? : Schedule → String → Option IsoString
  | [], _ => none
  | (k1, v1) :: rest, k => if k1 == k then some v1 else dictGet? rest k

/-- Python `k in d`. -/
def dictContains (d : Schedule) (k : String) : Bool :=
  (dictGet? d k).isSome

/-- Python `d[k] = v`: update in place when the key exists (keeping its
position), append otherwise. -/
def dictInsert : Schedule → String → IsoString → Schedule
  | [], k, v => [(k, v)]
  | (k1, v1) :: rest, k, v =>
    if k1 == k then (k, v) :: rest else (k1, v1) :: dictInsert rest k v

/-- Python `del d[k]`. -/
def dictRemove : Schedule → String → Schedule
  | [], _ => []
  | (k1, v1) :: rest, k =>
    if k1 == k then dictRemove rest k else (k1, v1) :: dictRemove rest k

/-- The file system as seen by the file backend: the single snapshot file
`deletion_schedule.json`, `none` when the file does not exist. -/
structure FileState where
  file : Option Schedule
deriving DecidableEq, Repr

/-- Embeds `save_deletion_schedule_to_file` (lines 92-94): serialize the
whole mapping into the snapshot file, creating it if absent. -/
def save_deletion_schedule_to_file (_fs : FileState) (schedule : Schedule) : FileState :=
  ⟨some schedule⟩

/-- Embeds `load_deletion_schedule_from_file` (lines 96-101): read the whole
snapshot; `FileNotFoundError` yields the empty dict. -/
def load_deletion_schedule_from_file (fs : FileState) : Schedule :=
  match fs.file with
  | some schedule => schedule
  | none => []

/-- Embeds the file branch of `save_deletion_schedule` (lines 113-116):
read-modify-write of the whole snapshot. -/
def save_deletion_schedule_file (fs : FileState) (schedule_key : String)
    (delete_time : Timestamp) : FileState :=
  let schedule := load_deletion_schedule_from_file fs
  save_deletion_schedule_to_file fs (dictInsert schedule schedule_key (isoformat delete_time))

/-- Embeds the file branch of `delete_deletion_schedule` (lines 356-360):
rewrite the snapshot only when the key is present. -/
def delete_deletion_schedule_file (fs : FileState) (schedule_key : String) : FileState :=
  let schedule := load_deletion_schedule_from_file fs
  if dictContains schedule schedule_key then
    save_deletion_schedule_to_file fs (dictRemove schedule schedule_key)
  else fs

theorem dictGet_insert (d : Schedule) (k : String) (v : IsoString) :
    dictGet? (dictInsert d k v) k = some v := by
  induction d with
  | nil => simp [dictInsert, dictGet?]
  | cons p rest ih =>
    obtain ⟨k1, v1⟩ := p
    by_cases h : k1 == k
    · simp [dictInsert, dictGet?, h]
    · simp [dictInsert, dictGet?, h, ih]

/-- C7: put followed by loadAll returns the stored pair unchanged: the
snapshot read back after `save_deletion_schedule_file` binds the key to the
serialized due time, and deserializing recovers the exact timestamp. -/
theorem radio_C7_put_loadAll_roundtrip (fs : FileState) (action_id : String) (due_time : Timestamp) :
    dictGet? (load_deletion_schedule_from_file
        (save_deletion_schedule_file fs action_id due_time)) action_id
      = some (isoformat due_time)
    ∧ fromisoformat (isoformat due_time) = some due_time := by
  constructor
  · simp [save_deletion_schedule_file, save_deletion_schedule_to_file,
      load_deletion_schedule_from_file, dictGet_insert]
  · rfl

/-- C8: removing an absent key is a no-op that succeeds: the file state
(and hence any subsequent loadAll) is unchanged. -/
theorem radio_C8_remove_absent_noop (fs : FileState) (k : String)
    (h : dictContains (load_deletion_schedule_from_file fs) k = false) :
    delete_deletion_schedule_file fs k = fs := by
  simp [delete_deletion_schedule_file, h]

theorem radio_C8_remove_absent_noop_witness :
    dictContains (load_deletion_schedule_from_file ⟨some [("1_2", isoformat 0)]⟩) "3_4" = false
    ∧ delete_deletion_schedule_file ⟨some [("1_2", isoformat 0)]⟩ "3_4"
        = ⟨some [("1_2", isoformat 0)]⟩ :=
  ⟨by decide, radio_C8_remove_absent_noop ⟨some [("1_2", isoformat 0)]⟩ "3_4" (by decide)⟩

/-- C10: with no snapshot file, loadAll returns the empty mapping rather
than failing, and the first put creates the file holding exactly that
entry. -/
theorem radio_C10_missing_file_empty_load :
    load_deletion_schedule_from_file ⟨none⟩ = []
    ∧ ∀ (k : String) (t : Timestamp),
        (save_deletion_schedule_file ⟨none⟩ k t).file = some [(k, isoformat t)] := by
  constructor
  · rfl
  · intro k t
    rfl

/-!
Schedule-key parsing.  The relational branches of `save_deletion_schedule`
(line 111) and `delete_deletion_schedule` (line 354) run
`message_id, channel_id = map(int, schedule_key.split('_'))`.
`str.split('_')` splits at every underscore (keeping empty parts), modelled
character by character by `splitOnChar`; unpacking into two names raises
`ValueError` unless there are exactly two parts, and `int(part)` raises
`ValueError` on a part it does not accept.  Python's `int()` strips
surrounding whitespace, then accepts an optional sign followed by one or
more decimal digits — so a whitespace-padded part such as " 1 " parses
fine.  `int()` also allows single `_` separators between digits, but a part
of `key.split('_')` can never contain `_` (`splitOnChar_parts_no_sep`
below), so digit grouping is unreachable here; digits and whitespace are
modelled over ASCII (Python additionally admits non-ASCII Unicode decimal
digits and spaces).
-/

/-- Python `s.split(sep)` for a one-character separator, over the character
list: every separator occurrence cuts, empty parts are kept, and the empty
string yields one empty part. -/
def splitOnChar : List Char → Char → List (List Char)
  | [], _ => [[]]
  | c :: rest, sep =>
    if c == sep then [] :: splitOnChar rest sep
    else
      match splitOnChar rest sep with
      | [] => [[c]]
      | part :: parts => (c :: part) :: parts

theorem splitOnChar_parts_no_sep (sep : Char) :
    ∀ (cs : List Char), ∀ part ∈ splitOnChar cs sep, sep ∉ part := by
  intro cs
  induction cs with
  | nil =>
    intro part hp
    simp only [splitOnChar, List.mem_singleton] at hp
    simp [hp]
  | cons c rest ih =>
    intro part hp
    rw [splitOnChar] at hp
    by_cases hc : c == sep
    · rw [if_pos hc] at hp
      rcases List.mem_cons.mp hp with hp | hp
      · simp [hp]
      · exact ih part hp
    · rw [if_neg hc] at hp
      cases hsp : splitOnChar rest sep with
      | nil =>
        rw [hsp] at hp
        rw [List.mem_singleton] at hp
        subst hp
        intro he
        rw [List.mem_singleton] at he
        exact hc (by simp [he])
      | cons p ps =>
        rw [hsp] at hp
        rcases List.mem_cons.mp hp with hp | hp
        · subst hp
          intro he
          rcases List.mem_cons.mp he with he | he
          · exact hc (by simp [he])
          · exact ih p (by rw [hsp]; exact List.mem_cons_self p ps) he
        · exact ih part (by rw [hsp]; exact List.mem_cons.mpr (Or.inr hp))

/-- Python `s.strip()`: drop leading and trailing whitespace. -/
def pyStrip (cs : List Char) : List Char :=
  ((cs.dropWhile Char.isWhitespace).reverse.dropWhile Char.isWhitespace).reverse

/-- Accumulate the decimal value of a digit run; `none` on a non-digit. -/
def pyDigitsAux : List Char → Nat → Option Nat
  | [], acc => some acc
  | c :: rest, acc =>
    if c.isDigit then pyDigitsAux rest (10 * acc + (c.toNat - 48)) else none

/-- Value of a non-empty all-digit run, `none` otherwise. -/
def pyDigits? : List Char → Option Nat
  | [] => none
  | c :: rest => pyDigitsAux (c :: rest) 0

/-- Model of Python `int(s)` on an underscore-free token: strip surrounding
whitespace, then an optional sign and one or more digits; `none` models the
raised `ValueError`. -/
def pyint? (cs : List Char) : Option Int :=
  match pyStrip cs with
  | [] => none
  | c :: rest =>
    if c == '-' then (pyDigits? rest).map (fun n : Nat => -(n : Int))
    else if c == '+' then (pyDigits? rest).map (fun n : Nat => (n : Int))
    else (pyDigits? (c :: rest)).map (fun n : Nat => (n : Int))

/-- Embeds `message_id, channel_id = map(int, schedule_key.split('_'))`:
`none` models the `ValueError` raised when there are not exactly two parts
or a part is not accepted by `int()`. -/
def parseScheduleKey (schedule_key : String) : Option (Int × Int) :=
  match splitOnChar schedule_key.data '_' with
  | [a, b] =>
    match pyint? a, pyint? b with
    | some message_id, some channel_id => some (message_id, channel_id)
    | _, _ => none
  | _ => none

/-- Modelled from the spec side of C9: a token is a bare integer literal
when it is an optional sign followed by at least one digit (no padding). -/
def isIntLit (cs : List Char) : Bool :=
  match cs with
  | [] => false
  | c :: rest =>
    if c == '-' || c == '+' then !rest.isEmpty && rest.all Char.isDigit
    else (c :: rest).all Char.isDigit

/-- Modelled from the spec side of C9 as claimed: the key is exactly of the
shape `<integer>_<integer>` — it splits on `_` into two bare integer
literals. -/
def keyHasShape (k : String) : Bool :=
  match splitOnChar k.data '_' with
  | [a, b] => isIntLit a && isIntLit b
  | _ => false

/-- A token Python's `int()` accepts: after stripping surrounding
whitespace, an optional sign followed by at least one digit. -/
def isPyIntToken (cs : List Char) : Bool :=
  isIntLit (pyStrip cs)

/-- The shape the code actually requires of a key: exactly two parts around
`_`, each a token `int()` accepts (so whitespace padding around the numbers
is allowed). -/
def keyHasPyShape (k : String) : Bool :=
  match splitOnChar k.data '_' with
  | [a, b] => isPyIntToken a && isPyIntToken b
  | _ => false

theorem pyDigitsAux_isSome (cs : List Char) :
    ∀ acc, (pyDigitsAux cs acc).isSome = cs.all Char.isDigit := by
  induction cs with
  | nil => intro acc; rfl
  | cons c rest ih =>
    intro acc
    by_cases h : c.isDigit <;> simp [pyDigitsAux, h, ih]

theorem pyDigits_isSome (cs : List Char) :
    (pyDigits? cs).isSome = (!cs.isEmpty && cs.all Char.isDigit) := by
  cases cs with
  | nil => rfl
  | cons c rest => simp [pyDigits?, pyDigitsAux_isSome]

theorem pyint_isSome (cs : List Char) : (pyint? cs).isSome = isPyIntToken cs := by
  unfold pyint? isPyIntToken
  cases hs : pyStrip cs with
  | nil => rfl
  | cons c rest =>
    simp only [isIntLit]
    by_cases h1 : c == '-'
    · simp [h1, Option.isSome_map', pyDigits_isSome]
    · by_cases h2 : c == '+'
      · simp [h1, h2, Option.isSome_map', pyDigits_isSome]
      · simp [h1, h2, Option.isSome_map', pyDigits_isSome]

theorem parseScheduleKey_isSome (k : String) :
    (parseScheduleKey k).isSome = keyHasPyShape k := by
  unfold parseScheduleKey keyHasPyShape
  cases h : splitOnChar k.data '_' with
  | nil => rfl
  | cons a t =>
    cases t with
    | nil => rfl
    | cons b t2 =>
      cases t2 with
      | nil =>
        cases hx : pyint? a <;> cases hy : pyint? b <;>
          simp [hx, hy, ← pyint_isSome]
      | cons c t3 => rfl

/-!
Escalation.  `send_error_notification` (lines 262-281) and
`notify_runtime_error` (lines 183-202) have identical control flow (they
differ only in the message texts): both consult and set the module-global
latch `notification_sent`, then inside one `try` block send to the public
channel (when `get_channel` finds it) and then to the admin channel; an
exception from either send is caught at the end of the function, so a
failing public send also skips the admin send.  We track how many messages
were actually delivered to each audience.
-/

/-- The escalation latch plus delivered-message counters per audience. -/
structure EscState where
  notification_sent : Bool
  publicMsgs : Nat
  adminMsgs : Nat
deriving DecidableEq, Repr

/-- Process start: latch clear, nothing sent. -/
def escInit : EscState := ⟨false, 0, 0⟩

/-- The external notification environment: which channels `get_channel`
resolves, and whether each `channel.send` raises. -/
structure NotifyEnv where
  publicChannel : Bool
  adminChannel : Bool
  publicSendFails : Bool
  adminSendFails : Bool
deriving DecidableEq, Repr

/-- The shared try-block body of both notifiers: public send first; a raise
is caught at function level, skipping the admin send. -/
def notifyBody (env : NotifyEnv) (st : EscState) : EscState :=
  if env.publicChannel then
    if env.publicSendFails then st
    else
      let st1 : EscState := ⟨st.notification_sent, st.publicMsgs + 1, st.adminMsgs⟩
      if env.adminChannel then
        if env.adminSendFails then st1
        else ⟨st1.notification_sent, st1.publicMsgs, st1.adminMsgs + 1⟩
      else st1
  else if env.adminChannel then
    if env.adminSendFails then st
    else ⟨st.notification_sent, st.publicMsgs, st.adminMsgs + 1⟩
  else st

/-- Embeds `send_error_notification` (lines 262-281). -/
def send_error_notification (env : NotifyEnv) (st : EscState) : EscState :=
  if st.notification_sent then st
  else notifyBody env ⟨true, st.publicMsgs, st.adminMsgs⟩

/-- Embeds `notify_runtime_error` (lines 183-202). -/
def notify_runtime_error (env : NotifyEnv) (st : EscState) : EscState :=
  if st.notification_sent then st
  else notifyBody env ⟨true, st.publicMsgs, st.adminMsgs⟩

/-- A process lifetime of escalation calls: `true` selects
`send_error_notification`, `false` selects `notify_runtime_error`, each with
its own notification environment. -/
def runEscalations (calls : List (Bool × NotifyEnv)) (st : EscState) : EscState :=
  calls.foldl
    (fun s call =>
      if call.1 then send_error_notification call.2 s else notify_runtime_error call.2 s)
    st

theorem notifyBody_sent (env : NotifyEnv) (st : EscState) :
    (notifyBody env st).notification_sent = st.notification_sent := by
  unfold notifyBody
  by_cases h1 : env.publicChannel <;> by_cases h2 : env.publicSendFails <;>
    by_cases h3 : env.adminChannel <;> by_cases h4 : env.adminSendFails <;>
      simp [h1, h2, h3, h4]

theorem notifyBody_pub_le (env : NotifyEnv) (st : EscState) :
    (notifyBody env st).publicMsgs ≤ st.publicMsgs + 1 := by
  unfold notifyBody
  by_cases h1 : env.publicChannel <;> by_cases h2 : env.publicSendFails <;>
    by_cases h3 : env.adminChannel <;> by_cases h4 : env.adminSendFails <;>
      simp [h1, h2, h3, h4]

theorem notifyBody_adm_le (env : NotifyEnv) (st : EscState) :
    (notifyBody env st).adminMsgs ≤ st.adminMsgs + 1 := by
  unfold notifyBody
  by_cases h1 : env.publicChannel <;> by_cases h2 : env.publicSendFails <;>
    by_cases h3 : env.adminChannel <;> by_cases h4 : env.adminSendFails <;>
      simp [h1, h2, h3, h4]

/-- Invariant carried across escalation calls: messages are only ever sent
by the latch-setting call, and never more than one per audience. -/
def EscInv (st : EscState) : Prop :=
  (st.notification_sent = false → st.publicMsgs = 0 ∧ st.adminMsgs = 0)
  ∧ st.publicMsgs ≤ 1 ∧ st.adminMsgs ≤ 1

theorem send_error_notification_inv (env : NotifyEnv) (st : EscState)
    (h : EscInv st) : EscInv (send_error_notification env st) := by
  unfold send_error_notification
  by_cases hs : st.notification_sent
  · simpa [hs]
  · simp only [hs, if_false, Bool.false_eq_true]
    obtain ⟨hzero, _, _⟩ := h
    obtain ⟨hp0, ha0⟩ := hzero (by simpa using hs)
    have hsent := notifyBody_sent env ⟨true, st.publicMsgs, st.adminMsgs⟩
    have hpub := notifyBody_pub_le env ⟨true, st.publicMsgs, st.adminMsgs⟩
    have hadm := notifyBody_adm_le env ⟨true, st.publicMsgs, st.adminMsgs⟩
    refine ⟨?_, ?_, ?_⟩
    · intro hfalse
      rw [hsent] at hfalse
      simp at hfalse
    · simp only at hpub
      omega
    · simp only at hadm
      omega

theorem notify_runtime_error_inv (env : NotifyEnv) (st : EscState)
    (h : EscInv st) : EscInv (notify_runtime_error env st) := by
  unfold notify_runtime_error
  by_cases hs : st.notification_sent
  · simpa [hs]
  · simp only [hs, if_false, Bool.false_eq_true]
    obtain ⟨hzero, _, _⟩ := h
    obtain ⟨hp0, ha0⟩ := hzero (by simpa using hs)
    have hsent := notifyBody_sent env ⟨true, st.publicMsgs, st.adminMsgs⟩
    have hpub := notifyBody_pub_le env ⟨true, st.publicMsgs, st.adminMsgs⟩
    have hadm := notifyBody_adm_le env ⟨true, st.publicMsgs, st.adminMsgs⟩
    refine ⟨?_, ?_, ?_⟩
    · intro hfalse
      rw [hsent] at hfalse
      simp at hfalse
    · simp only at hpub
      omega
    · simp only at hadm
      omega

theorem runEscalations_inv (calls : List (Bool × NotifyEnv)) :
    ∀ st, EscInv st → EscInv (runEscalations calls st) := by
  induction calls with
  | nil => intro st h; exact h
  | cons call rest ih =>
    intro st h
    have hstep : EscInv (if call.1 then send_error_notification call.2 st
        else notify_runtime_error call.2 st) := by
      by_cases hc : call.1
      · simpa [hc] using send_error_notification_inv call.2 st h
      · simpa [hc] using notify_runtime_error_inv call.2 st h
    have hrest := ih _ hstep
    simpa [runEscalations, List.foldl_cons] using hrest

theorem send_error_notification_sets_latch (env : NotifyEnv) (st : EscState) :
    (send_error_notification env st).notification_sent = true := by
  unfold send_error_notification
  by_cases hs : st.notification_sent
  · simp [hs]
  · simp [hs, notifyBody_sent]

/-- C6: across any process lifetime of escalation calls (any interleaving of
`send_error_notification` and `notify_runtime_error`, under any channel
availability and send outcomes), at most one message is delivered to the
public audience and at most one to the admin audience; and once the latch is
set every later escalate call is a no-op. -/
theorem radio_C6_single_escalation :
    (∀ calls : List (Bool × NotifyEnv),
      (runEscalations calls escInit).publicMsgs ≤ 1
      ∧ (runEscalations calls escInit).adminMsgs ≤ 1)
    ∧ (∀ (env : NotifyEnv) (st : EscState), st.notification_sent = true →
        send_error_notification env st = st ∧ notify_runtime_error env st = st) := by
  constructor
  · intro calls
    have h := runEscalations_inv calls escInit
      ⟨fun _ => ⟨rfl, rfl⟩, by decide, by decide⟩
    exact ⟨h.2.1, h.2.2⟩
  · intro env st hs
    constructor <;> simp [send_error_notification, notify_runtime_error, hs]

theorem radio_C6_single_escalation_witness :
    ((runEscalations [(true, ⟨true, true, false, false⟩),
        (false, ⟨true, true, false, false⟩)] escInit).publicMsgs ≤ 1)
    ∧ send_error_notification ⟨true, true, false, false⟩ ⟨true, 1, 1⟩ = ⟨true, 1, 1⟩ :=
  ⟨(radio_C6_single_escalation.1 _).1,
   (radio_C6_single_escalation.2 ⟨true, true, false, false⟩ ⟨true, 1, 1⟩ rfl).1⟩

/-!
Relational backend.  `db_pool` readiness is `is_db_pool_ready` (lines
52-53); `failing` models the connection raising `OperationalError` (or any
`Exception`) during a query.  The table is keyed by
`(message_id, channel_id)` with `ON DUPLICATE KEY UPDATE` upsert.
-/

/-- State of the aiomysql pool and the `deletion_schedule` table. -/
structure DbState where
  ready : Bool
  failing : Bool
  table : List ((Int × Int) × Timestamp)
deriving DecidableEq, Repr

/-- SQL upsert on the `(message_id, channel_id)` primary key. -/
def upsert : List ((Int × Int) × Timestamp) → Int × Int → Timestamp →
    List ((Int × Int) × Timestamp)
  | [], k, t => [(k, t)]
  | (k1, t1) :: rest, k, t =>
    if k1 == k then (k, t) :: rest else (k1, t1) :: upsert rest k t

/-- Result of `save_deletion_to_db`: the function itself always returns
`None` to its caller; all it can do is mutate state, notify, and log. -/
structure DbPutResult where
  db : DbState
  esc : EscState
  loggedError : Bool
deriving DecidableEq, Repr

/-- Embeds `save_deletion_to_db` (lines 137-152, the shadowing definition):
an unready pool is logged and returns; a raising query is logged and routed
to `notify_runtime_error`; otherwise the row is upserted. -/
def save_deletion_to_db (env : NotifyEnv) (db : DbState) (esc : EscState)
    (message_id channel_id : Int) (delete_time : Timestamp) : DbPutResult :=
  if !db.ready then
    ⟨db, esc, true⟩
  else if db.failing then
    ⟨db, notify_runtime_error env esc, true⟩
  else
    ⟨⟨db.ready, db.failing, upsert db.table (message_id, channel_id) delete_time⟩, esc, false⟩

/-- Result of `delete_deletion_from_db`, whose failure path additionally
calls `shutdown_bot`. -/
structure DbDelResult where
  db : DbState
  esc : EscState
  shutdown : Bool
deriving DecidableEq, Repr

/-- Embeds `delete_deletion_from_db` (lines 363-376): silently does nothing
on an unready pool; a raising query is logged, escalated through
`send_error_notification`, and followed by `shutdown_bot` (which escalates
again through the now-set latch). -/
def delete_deletion_from_db (env : NotifyEnv) (db : DbState) (esc : EscState)
    (message_id channel_id : Int) : DbDelResult :=
  if db.ready then
    if db.failing then
      ⟨db, send_error_notification env (send_error_notification env esc), true⟩
    else
      ⟨⟨db.ready, db.failing,
          db.table.filter (fun r => !(r.1 == (message_id, channel_id)))⟩, esc, false⟩
  else ⟨db, esc, false⟩

/-- Embeds the `USE_DATABASE` branch of `save_deletion_schedule` (lines
109-112): parse the key, then write; `none` models the `ValueError`
escaping before any write. -/
def save_deletion_schedule_db (env : NotifyEnv) (db : DbState) (esc : EscState)
    (schedule_key : String) (delete_time : Timestamp) : Option DbPutResult :=
  (parseScheduleKey schedule_key).map
    (fun p => save_deletion_to_db env db esc p.1 p.2 delete_time)

/-- Embeds the `USE_DATABASE` branch of `delete_deletion_schedule` (lines
353-355): parse the key, then delete; `none` models the `ValueError`. -/
def delete_deletion_schedule_db (env : NotifyEnv) (db : DbState) (esc : EscState)
    (schedule_key : String) : Option DbDelResult :=
  (parseScheduleKey schedule_key).map
    (fun p => delete_deletion_from_db env db esc p.1 p.2)

/-- C9 as claimed: the relational put and remove complete without raising
exactly when the key has the exact shape `<integer>_<integer>` (two bare
integer literals around one underscore); every other key makes the parse
raise. -/
def C9_claim : Prop :=
  ∀ (env : NotifyEnv) (db : DbState) (esc : EscState)
    (schedule_key : String) (delete_time : Timestamp),
    (save_deletion_schedule_db env db esc schedule_key delete_time).isSome
        = keyHasShape schedule_key
    ∧ (delete_deletion_schedule_db env db esc schedule_key).isSome
        = keyHasShape schedule_key

/-- C9 counterexample: the key " 1 _ 2 " is not of the exact shape
`<integer>_<integer>`, yet `int()` strips the whitespace around each part,
so the relational put parses it successfully as `(1, 2)` instead of
raising. -/
theorem radio_C9_counterexample : ¬ C9_claim := by
  intro h
  have := (h ⟨true, true, false, false⟩ ⟨true, false, []⟩ escInit " 1 _ 2 " 0).1
  simp only [save_deletion_schedule_db, Option.isSome_map'] at this
  exact absurd this (by decide)

/-- C9 amended: the relational put and remove complete without raising
exactly when the key splits on `_` into exactly two parts each accepted by
Python's `int()` — after stripping surrounding whitespace, an optional sign
followed by digits.  A key with no underscore, more than one underscore
separator, or a non-numeric part still raises, but whitespace padding
around the two numbers is tolerated. -/
theorem radio_C9_amended_db_key_python_shape (env : NotifyEnv) (db : DbState)
    (esc : EscState) (schedule_key : String) (delete_time : Timestamp) :
    (save_deletion_schedule_db env db esc schedule_key delete_time).isSome
        = keyHasPyShape schedule_key
    ∧ (delete_deletion_schedule_db env db esc schedule_key).isSome
        = keyHasPyShape schedule_key := by
  unfold save_deletion_schedule_db delete_deletion_schedule_db
  rw [Option.isSome_map', Option.isSome_map']
  exact ⟨parseScheduleKey_isSome schedule_key, parseScheduleKey_isSome schedule_key⟩

/-- C3 as claimed: every failing put (unready pool or raising query) leads
to an escalation from a fresh latch.  The code falsifies this: an unready
pool is only logged. -/
def C3_claim : Prop :=
  ∀ (env : NotifyEnv) (db : DbState) (message_id channel_id : Int) (delete_time : Timestamp),
    db.ready = false ∨ db.failing = true →
    (save_deletion_to_db env db escInit message_id channel_id delete_time).esc.notification_sent
      = true

/-- C3 counterexample: with the pool not ready, `save_deletion_to_db` logs
"Database pool is not ready" and returns; no notification is sent and the
caller receives no failure signal. -/
theorem radio_C3_counterexample : ¬ C3_claim := by
  intro h
  have := h ⟨true, true, false, false⟩ ⟨false, false, []⟩ 1 2 0 (Or.inl rfl)
  simp [save_deletion_to_db, escInit] at this

/-- C3 amended: a put against an unready pool is swallowed with only a log
entry — state, table and escalation latch are untouched and the caller gets
no error; only a put whose SQL write raises is routed to the escalation
path (`notify_runtime_error`), and even then the caller sees no failure. -/
theorem radio_C3_amended_put_failure_reporting (env : NotifyEnv) (db : DbState)
    (esc : EscState) (message_id channel_id : Int) (delete_time : Timestamp) :
    (db.ready = false →
      save_deletion_to_db env db esc message_id channel_id delete_time = ⟨db, esc, true⟩)
    ∧ (db.ready = true → db.failing = true →
      save_deletion_to_db env db esc message_id channel_id delete_time
        = ⟨db, notify_runtime_error env esc, true⟩) := by
  constructor
  · intro h
    simp [save_deletion_to_db, h]
  · intro h1 h2
    simp [save_deletion_to_db, h1, h2]

theorem radio_C3_amended_put_failure_reporting_witness :
    save_deletion_to_db ⟨true, true, false, false⟩ ⟨false, false, []⟩ escInit 1 2 0
        = ⟨⟨false, false, []⟩, escInit, true⟩
    ∧ save_deletion_to_db ⟨true, true, false, false⟩ ⟨true, true, []⟩ escInit 1 2 0
        = ⟨⟨true, true, []⟩, notify_runtime_error ⟨true, true, false, false⟩ escInit, true⟩ :=
  ⟨(radio_C3_amended_put_failure_reporting ⟨true, true, false, false⟩ ⟨false, false, []⟩
      escInit 1 2 0).1 rfl,
   (radio_C3_amended_put_failure_reporting ⟨true, true, false, false⟩ ⟨true, true, []⟩
      escInit 1 2 0).2 rfl rfl⟩

/-!
Action Executor.  `delete_message` (lines 329-349, the shadowing
definition) resolves the channel, fetches and deletes the message, and only
after a successful delete removes the schedule entry; `discord.NotFound`,
`discord.Forbidden` and `discord.HTTPException` are each only logged, and an
unresolvable channel only logs and returns.  The external outcome of the
fetch/delete is an oracle input.  The `runtime_error_message_id` global it
clears on success tracks no claimed behaviour and is omitted.
-/

/-- Outcome of the external delete capability for one `(message, channel)`:
the five paths `delete_message` distinguishes. -/
inductive DeleteOutcome where
  | success
  | notFound
  | forbidden
  | httpError
  | channelUnavailable
deriving DecidableEq, Repr

/-- Python f-string `f"{message_id}_{channel_id}"`. -/
def scheduleKey (message_id channel_id : Int) : String :=
  toString message_id ++ "_" ++ toString channel_id

/-- Embeds `delete_message` (lines 329-349) over the file backend: returns
the updated file state and whether `delete_deletion_schedule` was called. -/
def delete_message (fs : FileState) (message_id channel_id : Int)
    (outcome : DeleteOutcome) : FileState × Bool :=
  match outcome with
  | DeleteOutcome.channelUnavailable => (fs, false)
  | DeleteOutcome.success =>
      (delete_deletion_schedule_file fs (scheduleKey message_id channel_id), true)
  | DeleteOutcome.notFound => (fs, false)
  | DeleteOutcome.forbidden => (fs, false)
  | DeleteOutcome.httpError => (fs, false)

/-- C1 as claimed: the executor removes the schedule entry exactly on
`Success`, `AlreadyGone` (`discord.NotFound`), `PermissionDenied`
(`discord.Forbidden`) and `ContainerUnavailable` (channel unresolvable),
leaving it only on `TransientError` (`discord.HTTPException`). -/
def C1_claim : Prop :=
  ∀ (fs : FileState) (message_id channel_id : Int) (outcome : DeleteOutcome),
    (delete_message fs message_id channel_id outcome).2 = true ↔
      (outcome = DeleteOutcome.success ∨ outcome = DeleteOutcome.notFound
        ∨ outcome = DeleteOutcome.forbidden ∨ outcome = DeleteOutcome.channelUnavailable)

/-- C1 counterexample: on `discord.NotFound` (the target already gone) the
code only logs a warning; `delete_deletion_schedule` is never called, so the
entry stays and is retried forever. -/
theorem radio_C1_counterexample : ¬ C1_claim := by
  intro h
  have := (h ⟨none⟩ 1 2 DeleteOutcome.notFound).2
    (Or.inr (Or.inl rfl))
  simp [delete_message] at this

/-- C1 amended: `delete_message` calls `Store.remove` if and only if the
external delete succeeded; on `NotFound`, `Forbidden`, `HTTPException` and
an unavailable channel alike, the entry is left in the store (so all
non-success outcomes, not just transient ones, are retried on later
sweeps). -/
theorem radio_C1_amended_remove_only_on_success (fs : FileState)
    (message_id channel_id : Int) (outcome : DeleteOutcome) :
    (delete_message fs message_id channel_id outcome).2 = true ↔
      outcome = DeleteOutcome.success := by
  cases outcome <;> simp [delete_message]

/-!
Sweep.  `deletion_cleanup_task` (lines 453-467) is a `tasks.loop` body: it
takes `now`, loads a snapshot of the schedule, and iterates it in order;
for each entry it first parses the stored due-time string, then, when due,
parses the key and calls `delete_message`.  The whole loop sits inside one
`try`; any raised `ValueError` jumps to the handler, which logs, calls
`send_error_notification` and then `shutdown_bot` (whose own
`send_error_notification` call is a latched no-op).  We run the loop over
the file backend.
-/

/-- The iteration of `deletion_cleanup_task` over the snapshot: returns the
file state and dispatched `(message_id, channel_id)` calls accumulated when
the raise happens (`true` in the last component), or after the full pass
(`false`). -/
def sweepLoop (now : Timestamp) (outcome : Int → Int → DeleteOutcome) :
    List (String × IsoString) → FileState → List (Int × Int) →
      FileState × List (Int × Int) × Bool
  | [], fs, acc => (fs, acc, false)
  | (key, v) :: rest, fs, acc =>
    match fromisoformat v with
    | none => (fs, acc, true)
    | some delete_time =>
      if delete_time ≤ now then
        match parseScheduleKey key with
        | none => (fs, acc, true)
        | some p =>
          let r := delete_message fs p.1 p.2 (outcome p.1 p.2)
          sweepLoop now outcome rest r.1 (acc ++ [(p.1, p.2)])
      else sweepLoop now outcome rest fs acc

/-- Observable result of one sweep tick. -/
structure TickResult where
  fs : FileState
  dispatched : List (Int × Int)
  esc : EscState
  shutdown : Bool
deriving DecidableEq, Repr

/-- Embeds one iteration of `deletion_cleanup_task` (lines 453-467) over the
file backend.  A raise inside the loop reaches the `except` handler: log,
`send_error_notification`, then `shutdown_bot` (notify defaults to `True`,
so it calls `send_error_notification` once more against the set latch). -/
def deletion_cleanup_task_tick (now : Timestamp) (outcome : Int → Int → DeleteOutcome)
    (env : NotifyEnv) (fs : FileState) (esc : EscState) : TickResult :=
  let schedule := load_deletion_schedule_from_file fs
  let r := sweepLoop now outcome schedule fs []
  if r.2.2 then
    let esc2 := send_error_notification env esc
    let esc3 := send_error_notification env esc2
    ⟨r.1, r.2.1, esc3, true⟩
  else
    ⟨r.1, r.2.1, esc, false⟩

/-- C2 as claimed: a stored entry that cannot be parsed is logged and
skipped and never halts the sweep or shuts the process down — so no tick
ever sets the shutdown flag (in this model the loop raises only on parse
failures). -/
def C2_claim : Prop :=
  ∀ (now : Timestamp) (outcome : Int → Int → DeleteOutcome) (env : NotifyEnv)
    (fs : FileState) (esc : EscState),
    (deletion_cleanup_task_tick now outcome env fs esc).shutdown = false

/-- C2 counterexample: a snapshot whose first entry has an unparsable
due-time string aborts the tick before the second (well-formed, due) entry
is processed, and shuts the bot down. -/
theorem radio_C2_counterexample : ¬ C2_claim := by
  intro h
  have := h 10 (fun _ _ => DeleteOutcome.success) ⟨true, true, false, false⟩
    ⟨some [("bad", IsoString.malformed "oops"), ("1_2", isoformat 0)]⟩ escInit
  simp [deletion_cleanup_task_tick, load_deletion_schedule_from_file,
    sweepLoop, fromisoformat] at this

theorem sweepLoop_raises_of_malformed (now : Timestamp)
    (outcome : Int → Int → DeleteOutcome) :
    ∀ (l : List (String × IsoString)) (fs : FileState) (acc : List (Int × Int)),
      (∃ k j, (k, IsoString.malformed j) ∈ l) →
      (sweepLoop now outcome l fs acc).2.2 = true := by
  intro l
  induction l with
  | nil =>
    intro fs acc h
    obtain ⟨k, j, hm⟩ := h
    simp at hm
  | cons e rest ih =>
    intro fs acc h
    obtain ⟨key, v⟩ := e
    cases v with
    | malformed j => simp [sweepLoop, fromisoformat]
    | valid t =>
      obtain ⟨k, j, hm⟩ := h
      have hrest : ∃ k j, (k, IsoString.malformed j) ∈ rest := by
        rcases List.mem_cons.mp hm with heq | hmem
        · exact absurd (congrArg Prod.snd heq) (by simp)
        · exact ⟨k, j, hmem⟩
      simp only [sweepLoop, fromisoformat]
      by_cases hd : t ≤ now
      · simp only [hd, if_true]
        cases hp : parseScheduleKey key with
        | none => rfl
        | some p => exact ih _ _ hrest
      · simp only [hd, if_false]
        exact ih _ _ hrest

/-- C2 amended: a stored entry that cannot be parsed aborts the whole sweep
tick instead of being skipped — the tick escalates (setting the latch) and
shuts the bot down, and when the malformed entry heads the snapshot nothing
at all is dispatched. -/
theorem radio_C2_amended_malformed_entry_aborts_tick (now : Timestamp)
    (outcome : Int → Int → DeleteOutcome) (env : NotifyEnv) (fs : FileState)
    (esc : EscState) (k j : String)
    (hmem : (k, IsoString.malformed j) ∈ load_deletion_schedule_from_file fs) :
    (deletion_cleanup_task_tick now outcome env fs esc).shutdown = true
    ∧ (deletion_cleanup_task_tick now outcome env fs esc).esc.notification_sent = true
    ∧ (∀ rest, fs.file = some ((k, IsoString.malformed j) :: rest) →
        (deletion_cleanup_task_tick now outcome env fs esc).dispatched = []) := by
  have hraise := sweepLoop_raises_of_malformed now outcome
    (load_deletion_schedule_from_file fs) fs [] ⟨k, j, hmem⟩
  refine ⟨?_, ?_, ?_⟩
  · simp [deletion_cleanup_task_tick, hraise]
  · simp [deletion_cleanup_task_tick, hraise, send_error_notification_sets_latch]
  · intro rest hfile
    simp [deletion_cleanup_task_tick, load_deletion_schedule_from_file, hfile,
      sweepLoop, fromisoformat]

theorem radio_C2_amended_malformed_entry_aborts_tick_witness :
    ("bad", IsoString.malformed "oops")
        ∈ load_deletion_schedule_from_file
            ⟨some [("bad", IsoString.malformed "oops"), ("1_2", isoformat 0)]⟩
    ∧ (deletion_cleanup_task_tick 10 (fun _ _ => DeleteOutcome.success)
        ⟨true, true, false, false⟩
        ⟨some [("bad", IsoString.malformed "oops"), ("1_2", isoformat 0)]⟩
        escInit).shutdown = true :=
  ⟨by decide,
   (radio_C2_amended_malformed_entry_aborts_tick 10 (fun _ _ => DeleteOutcome.success)
      ⟨true, true, false, false⟩
      ⟨some [("bad", IsoString.malformed "oops"), ("1_2", isoformat 0)]⟩
      escInit "bad" "oops" (by decide)).1⟩

/-- C5: end-to-end over the file backend: after `put("123_456", t)` into an
empty store, one sweep tick with an external delete that succeeds dispatches
the executor exactly once, with `message_id = 123` and `channel_id = 456`,
after which the snapshot no longer contains the key; and when the entry is
not yet due (`now < t`) nothing is dispatched. -/
theorem radio_C5_end_to_end (now t : Timestamp) (env : NotifyEnv) (esc : EscState) :
    (t ≤ now →
      (deletion_cleanup_task_tick now (fun _ _ => DeleteOutcome.success) env
          (save_deletion_schedule_file ⟨none⟩ "123_456" t) esc).dispatched = [(123, 456)]
      ∧ dictGet? (load_deletion_schedule_from_file
          (deletion_cleanup_task_tick now (fun _ _ => DeleteOutcome.success) env
            (save_deletion_schedule_file ⟨none⟩ "123_456" t) esc).fs) "123_456" = none)
    ∧ (now < t →
      (deletion_cleanup_task_tick now (fun _ _ => DeleteOutcome.success) env
          (save_deletion_schedule_file ⟨none⟩ "123_456" t) esc).dispatched = []) := by
  have hp : parseScheduleKey "123_456" = some (123, 456) := by decide
  have hk : scheduleKey 123 456 = "123_456" := by decide
  constructor
  · intro h
    constructor
    · simp [save_deletion_schedule_file, save_deletion_schedule_to_file,
        load_deletion_schedule_from_file, dictInsert, deletion_cleanup_task_tick,
        sweepLoop, isoformat, fromisoformat, h, hp, delete_message, hk,
        delete_deletion_schedule_file, dictContains, dictGet?, dictRemove]
    · simp [save_deletion_schedule_file, save_deletion_schedule_to_file,
        load_deletion_schedule_from_file, dictInsert, deletion_cleanup_task_tick,
        sweepLoop, isoformat, fromisoformat, h, hp, delete_message, hk,
        delete_deletion_schedule_file, dictContains, dictGet?, dictRemove]
  · intro h
    have hnotdue : ¬ (t ≤ now) := not_le.mpr h
    simp [save_deletion_schedule_file, save_deletion_schedule_to_file,
      load_deletion_schedule_from_file, dictInsert, deletion_cleanup_task_tick,
      sweepLoop, isoformat, fromisoformat, hnotdue]

theorem radio_C5_end_to_end_witness :
    ((deletion_cleanup_task_tick 0 (fun _ _ => DeleteOutcome.success)
        ⟨true, true, false, false⟩
        (save_deletion_schedule_file ⟨none⟩ "123_456" (-1)) escInit).dispatched = [(123, 456)])
    ∧ ((deletion_cleanup_task_tick 0 (fun _ _ => DeleteOutcome.success)
        ⟨true, true, false, false⟩
        (save_deletion_schedule_file ⟨none⟩ "123_456" 1) escInit).dispatched = []) :=
  ⟨((radio_C5_end_to_end 0 (-1) ⟨true, true, false, false⟩ escInit).1 (by decide)).1,
   (radio_C5_end_to_end 0 1 ⟨true, true, false, false⟩ escInit).2 (by decide)⟩

/-!
Boot.  `on_ready` (lines 388-392) logs, awaits `init_db_pool` (which does
nothing when `USE_DATABASE` is false) and then calls
`deletion_cleanup_task.start()`.  There is no separate recovery pass over
the store.  `discord.ext.tasks.loop(seconds=30)` runs the first iteration of
the task immediately upon `start()` and each later iteration 30 seconds
after the previous one, so iteration `i` begins `30 * i` seconds after boot.
We record the boot-time event trace up to the end of the first sweep
iteration.
-/

/-- Ordered events of the boot sequence. -/
inductive ProcEvent where
  | recoveryDispatch (message_id channel_id : Int)
  | tickStart (i : Nat)
  | tickDispatch (i : Nat) (message_id channel_id : Int)
deriving DecidableEq, Repr

/-- Whether an event is the start of a sweep iteration. -/
def isTickStart : ProcEvent → Bool
  | ProcEvent.tickStart _ => true
  | _ => false

/-- Whether an event hands an entry to the Action Executor. -/
def isDispatch : ProcEvent → Bool
  | ProcEvent.recoveryDispatch _ _ => true
  | ProcEvent.tickDispatch _ _ _ => true
  | _ => false

/-- The `seconds=30` argument of `@tasks.loop`. -/
def tick_interval_seconds : Nat := 30

/-- Boot-relative start time of sweep iteration `i`: the first iteration
runs immediately on `start()`. -/
def iterationStartOffset (i : Nat) : Nat := tick_interval_seconds * i

/-- Embeds the event trace of `on_ready` (lines 388-392) through the end of
the first sweep iteration: no recovery dispatches occur, only the first
tick and whatever it dispatches. -/
def on_ready_events (now : Timestamp) (outcome : Int → Int → DeleteOutcome)
    (env : NotifyEnv) (fs : FileState) (esc : EscState) : List ProcEvent :=
  let r := deletion_cleanup_task_tick now outcome env fs esc
  ProcEvent.tickStart 0 :: r.dispatched.map (fun p => ProcEvent.tickDispatch 0 p.1 p.2)

/-- C4 as claimed: when the store holds an entry already overdue at boot, a
Recovery Loader hands it to the Action Executor strictly before the first
sweep tick fires — i.e. a dispatch event precedes the first tick-start event
of the boot trace. -/
def C4_claim : Prop :=
  ∀ (now : Timestamp) (outcome : Int → Int → DeleteOutcome) (env : NotifyEnv)
    (fs : FileState) (esc : EscState) (key : String) (t : Timestamp),
    dictGet? (load_deletion_schedule_from_file fs) key = some (isoformat t) →
    t ≤ now →
    ((on_ready_events now outcome env fs esc).takeWhile
        (fun e => !(isTickStart e))).any isDispatch = true

/-- C4 counterexample: with one overdue entry in the store, the boot trace
begins with the first sweep tick itself — nothing is dispatched before it,
because `on_ready` performs no recovery pass. -/
theorem radio_C4_counterexample : ¬ C4_claim := by
  intro h
  have := h 10 (fun _ _ => DeleteOutcome.success) ⟨true, true, false, false⟩
    ⟨some [("1_2", isoformat 0)]⟩ escInit "1_2" 0 (by decide) (by decide)
  simp [on_ready_events, isTickStart] at this

/-- C4 amended: there is no recovery loader; instead the sweep task's first
iteration runs immediately at boot (offset `30 * 0 = 0`, not one sweep
interval later), and that first iteration dispatches the overdue entry. -/
theorem radio_C4_amended_first_tick_immediate (now t : Timestamp)
    (outcome : Int → Int → DeleteOutcome) (env : NotifyEnv) (esc : EscState)
    (message_id channel_id : Int)
    (hdue : t ≤ now)
    (hkey : parseScheduleKey (scheduleKey message_id channel_id)
        = some (message_id, channel_id)) :
    on_ready_events now outcome env
        ⟨some [(scheduleKey message_id channel_id, isoformat t)]⟩ esc
      = [ProcEvent.tickStart 0, ProcEvent.tickDispatch 0 message_id channel_id]
    ∧ iterationStartOffset 0 = 0 ∧ 0 < tick_interval_seconds := by
  refine ⟨?_, rfl, ?_⟩
  · simp [on_ready_events, deletion_cleanup_task_tick,
      load_deletion_schedule_from_file, sweepLoop, isoformat, fromisoformat,
      hdue, hkey]
  · decide

theorem radio_C4_amended_first_tick_immediate_witness :
    ((0 : Timestamp) ≤ 5
      ∧ parseScheduleKey (scheduleKey 1 2) = some (1, 2))
    ∧ on_ready_events 5 (fun _ _ => DeleteOutcome.success) ⟨true, true, false, false⟩
        ⟨some [(scheduleKey 1 2, isoformat 0)]⟩ escInit
      = [ProcEvent.tickStart 0, ProcEvent.tickDispatch 0 1 2] :=
  ⟨⟨by decide, by decide⟩,
   (radio_C4_amended_first_tick_immediate 5 0 (fun _ _ => DeleteOutcome.success)
      ⟨true, true, false, false⟩ escInit 1 2 (by decide) (by decide)).1⟩
